import Mathlib

/-!
Shallow embedding of the adaptive bulk-ingestion controller from
`ag_es_centralized_ilm_alias_rollover_v3.py` / `_v4.py` (they agree on every
part modelled here; differences are noted inline), together with the
datastream variant's transport from `ag_es_centralized_ilm_datastream.py`.

Machine integers are modelled as `Nat`; Python's `int(max_bytes * 0.85)` is
modelled as the exact `max_bytes * 85 / 100` (floor), which agrees with the
CPython float computation on all inputs of the sizes that occur here.
Wall-clock instants are modelled as `Nat` seconds (the code uses
`time.time()` floats; the clock is monotone in any real run).
-/

deriving instance DecidableEq for Except

/-- Python `str.endswith`, evaluated on the character list. -/
def str_endsWith (v suffix : String) : Bool :=
  suffix.data.isSuffixOf v.data

/-- Python base-10 `int(s)`: `some` of the value on a nonempty digit string,
`none` (a raised `ValueError`) otherwise; sign/whitespace/underscore forms do
not occur among the modelled inputs. -/
def py_int (s : String) : Option Nat :=
  if s.data ≠ [] ∧ s.data.all (fun c => c.isDigit) then
    some (s.data.foldl (fun n c => n * 10 + (c.toNat - 48)) 0)
  else none

/-! ## Batch sizer (`docs_per_batch`, v3 lines 182-187 = v4 lines 198-201) -/

/-- `docs_per_batch(avg_doc_bytes, max_bytes)`:
`per_doc = avg_doc_bytes + 64`, `budget = int(max_bytes * SAFETY_MARGIN)`
with `SAFETY_MARGIN = 0.85`, result `max(1, budget // per_doc)`. -/
def docs_per_batch (avg_doc_bytes max_bytes : Nat) : Nat :=
  max 1 (max_bytes * 85 / 100 / (avg_doc_bytes + 64))

/-- The ingest loop caps the sizer's output at 40 before the first send:
v3 line 245 `dpb = min(dpb, 40)`, v4 line 268 `min(..., CAP_DOCS_PER_BULK)`
with `CAP_DOCS_PER_BULK = 40`. -/
def initial_dpb (avg_doc_bytes max_bytes : Nat) : Nat :=
  min (docs_per_batch avg_doc_bytes max_bytes) 40

/-! ## Encoder (`bulk_ndjson`, `gzip_bytes`) -/

/-- The data line produced by `json.dumps({...}, separators=(",", ":"))` for
one item: keys in insertion order, the payload being base64 ASCII text that
JSON string encoding leaves unchanged. -/
def doc_line (payload : String) : String :=
  "\x7b\"@timestamp\":\"2025-11-05T12:00:00Z\",\"service.name\":\"bench\",\"log.level\":\"info\",\"message\":\"" ++ payload ++ "\"\x7d"

/-- `bulk_ndjson(payload, n)`: `n` repetitions of a control line and a data
line, joined with newlines, plus a trailing newline (v3 lines 190-200). -/
def bulk_ndjson (payload : String) (n : Nat) : String :=
  String.intercalate "\n"
    ((List.range n).foldl
      (fun acc _ => acc ++ ["\x7b\"index\":\x7b\x7d\x7d", doc_line payload]) [])
    ++ "\n"

/-- The four bytes of the little-endian 32-bit field holding `t`. -/
def le32 (t : Nat) : List Nat :=
  [t % 256, t / 256 % 256, t / 65536 % 256, t / 16777216 % 256]

/-- The gzip member header that `gzip.GzipFile` writes for a file object with
no file name: magic `1f 8b`, method 8 (DEFLATE), flags 0, the 4-byte
little-endian MTIME field filled from the current clock (`time.time()`),
XFL 2 (default compresslevel 9), OS byte 255. -/
def gzip_header (mtime : Nat) : List Nat :=
  [31, 139, 8, 0] ++ le32 mtime ++ [2, 255]

/-- Output of `gzip_bytes` (v3 lines 202-206 = v4 lines 216-220), split into
the clock-dependent header and the compressed remainder.  The remainder
(DEFLATE stream, CRC32, ISIZE) is a fixed deterministic and lossless — hence
injective — function of the UTF-8 body, so we record the body itself: two
real outputs are byte-identical iff the two `GzipOut` values are equal. -/
structure GzipOut where
  header : List Nat
  body : String
deriving DecidableEq

/-- `gzip_bytes(s)` as a function of the body and of the clock reading the
gzip module takes for the MTIME field. -/
def gzip_bytes (s : String) (mtime : Nat) : GzipOut :=
  ⟨gzip_header mtime, s⟩

/-- The full encoding pipeline: NDJSON batch construction followed by the
gzip transform, at clock reading `mtime`. -/
def encode_batch (payload : String) (n mtime : Nat) : GzipOut :=
  gzip_bytes (bulk_ndjson payload n) mtime

/-! ## Transport (`post_bulk_with_adapt`, v3 lines 208-235 = v4 222-237) -/

/-- What the HTTP layer hands back for one bulk POST: either a
connection/timeout exception, or a response with a status code and the
`errors` flag of its JSON body. -/
inductive HttpResult where
  | connError : HttpResult
  | response (status : Nat) (errors : Bool) : HttpResult
deriving DecidableEq

/-- The three-way outcome of `post_bulk_with_adapt`: `-1` (shrink signal),
a raised `RuntimeError` carrying the status, or the doc count sent. -/
inductive BulkOutcome where
  | shrink : BulkOutcome
  | fatalStatus (status : Nat) : BulkOutcome
  | accepted (docs : Nat) : BulkOutcome
deriving DecidableEq

/-- The statuses the code treats as a shrink signal: `(413, 429, 502, 503, 504)`. -/
def shrinkStatuses : List Nat := [413, 429, 502, 503, 504]

/-- `post_bulk_with_adapt`: a connection/timeout exception returns `-1`;
a status `>= 300` returns `-1` when in `shrinkStatuses` and raises
otherwise; a status `< 300` returns `docs_in_batch` (the `errors` flag is
only printed). -/
def post_bulk_with_adapt (docs_in_batch : Nat) (r : HttpResult) : BulkOutcome :=
  match r with
  | .connError => .shrink
  | .response status _errors =>
    if 300 ≤ status then
      if status ∈ shrinkStatuses then .shrink else .fatalStatus status
    else .accepted docs_in_batch

/-- `post_bulk` of `ag_es_centralized_ilm_datastream.py` (lines 115-123):
no exception handler, raises on any status `>= 300`, and raises
`"bulk item errors"` when an accepted response sets the `errors` flag. -/
def post_bulk (r : HttpResult) : Except String Unit :=
  match r with
  | .connError => .error "connection error"
  | .response status errors =>
    if 300 ≤ status then .error "bulk status error"
    else if errors then .error "bulk item errors"
    else .ok ()

/-! ## Rotation monitor (`get_write_index`, v3 lines 140-145 = v4 170-175) -/

/-- `get_write_index`: the alias metadata as the ordered list of
`(index name, is_write_index flag)` pairs of the JSON object; the code
returns the first index whose flag is set and raises when none is. -/
def get_write_index (alias_items : List (String × Bool)) : Except String String :=
  match alias_items.find? (fun p => p.2) with
  | some p => .ok p.1
  | none => .error "Write index for alias not found"

/-! ## Limit discovery (`get_http_max_content_length_bytes`,
v3 lines 153-180; v4 lines 183-196 classifies suffixes identically) -/

/-- One `http.max_content_length` string value: `endswith("mb")` first, then
`endswith("b")`; `int(...)` on the remaining prefix raises `ValueError` when
it is not a digit string (`String.toNat?` models `int` on the nonnegative
digit-string forms that occur here); any other string is skipped
(`none`). -/
def parse_content_length (v : String) : Option (Except String Nat) :=
  if str_endsWith v "mb" then
    some (match py_int (v.dropRight 2) with
          | some n => .ok (n * 1024 * 1024)
          | none => .error "ValueError")
  else if str_endsWith v "b" then
    some (match py_int (v.dropRight 1) with
          | some n => .ok n
          | none => .error "ValueError")
  else none

/-- The `http.max_content_length` entries of the cluster-settings response,
`none` standing for an absent or non-string value. -/
structure ClusterSettingsView where
  persistent : Option String
  transient : Option String
  defaults : Option String
deriving DecidableEq

/-- `get_http_max_content_length_bytes`: try `persistent`, then `transient`,
then `defaults`, falling back to the conservative `100 * 1024 * 1024`. -/
def get_http_max_content_length_bytes (js : ClusterSettingsView) : Except String Nat :=
  match js.persistent.bind parse_content_length with
  | some r => r
  | none =>
    match js.transient.bind parse_content_length with
    | some r => r
    | none =>
      match js.defaults.bind parse_content_length with
      | some r => r
      | none => .ok (100 * 1024 * 1024)

/-! ## Ingestion loop (`run_ingest_until_rollovers`,
v3 lines 238-301 = v4 lines 264-323 in every respect modelled here; v4's
extra `ensure_index_is_managed` calls are external effects with no influence
on this state) -/

/-- Why the loop stopped: the `break` on reaching `TARGET_ROLLOVERS`, the
`break` on the time cap, or a propagated `RuntimeError` from the transport. -/
inductive StopReason where
  | goalReached : StopReason
  | timeCap : StopReason
  | fatalStop (status : Nat) : StopReason
deriving DecidableEq

/-- The loop's configuration constants: `TARGET_ROLLOVERS`, `MAX_MINUTES`,
`ILM_POLL_SECS`, and the `start_ts` clock reading taken before the loop. -/
structure LoopCfg where
  targetRotations : Nat
  maxMinutes : Nat
  pollSecs : Nat
  startTs : Nat
deriving DecidableEq

/-- The loop's mutable state: `dpb`, `write_idx`, `rollovers`, `batches`,
`last_poll`, the ordered log of `set_fast(index, on)` calls issued so far,
and whether (and why) the loop has stopped. -/
structure LoopState where
  dpb : Nat
  writeIdx : String
  rollovers : Nat
  batches : Nat
  lastPoll : Nat
  modeLog : List (String × Bool)
  done : Option StopReason
deriving DecidableEq

/-- State just before the `while` loop: `rollovers = 0`, `last_poll = 0.0`,
`batches = 0`, and `set_fast(write_idx, True)` already issued. -/
def initState (writeIdx : String) (dpb : Nat) : LoopState :=
  ⟨dpb, writeIdx, 0, 0, 0, [(writeIdx, true)], none⟩

/-- What one iteration of the `while` body consumes from the outside world:
the HTTP layer's answer to the bulk POST, the `now = time.time()` reading,
and the write index a poll would resolve (used only when the poll fires). -/
structure IterInput where
  resp : HttpResult
  now : Nat
  polled : String
deriving DecidableEq

/-- One iteration of the `while True` body.  On a shrink signal the code
halves `dpb` (floored at 1) and `continue`s — reaching neither the poll nor
the time-cap check.  On an accepted send it increments `batches`, polls when
`now - last_poll >= ILM_POLL_SECS` (counting a rotation, logging the two
`set_fast` calls and breaking once `rollovers >= TARGET_ROLLOVERS`), and
only then compares `now - start_ts` against the time cap. -/
def stepIter (cfg : LoopCfg) (s : LoopState) (inp : IterInput) : LoopState :=
  if s.done.isSome then s else
  match post_bulk_with_adapt s.dpb inp.resp with
  | .shrink => { s with dpb := max 1 (s.dpb / 2) }
  | .fatalStatus st => { s with done := some (.fatalStop st) }
  | .accepted _ =>
    let s1 := { s with batches := s.batches + 1 }
    let s2 :=
      if cfg.pollSecs ≤ inp.now - s1.lastPoll then
        if inp.polled ≠ s1.writeIdx then
          let s3 := { s1 with
            rollovers := s1.rollovers + 1,
            writeIdx := inp.polled,
            modeLog := s1.modeLog ++ [(s1.writeIdx, false), (inp.polled, true)] }
          if cfg.targetRotations ≤ s3.rollovers then
            { s3 with done := some .goalReached }
          else
            { s3 with lastPoll := inp.now }
        else { s1 with lastPoll := inp.now }
      else s1
    if s2.done.isSome then s2
    else if 60 * cfg.maxMinutes < inp.now - cfg.startTs then
      { s2 with done := some .timeCap }
    else s2

/-- The loop run over a finite trace of iteration inputs. -/
def runLoop (cfg : LoopCfg) (s : LoopState) (inputs : List IterInput) : LoopState :=
  inputs.foldl (stepIter cfg) s

/-- The v3 configuration: `TARGET_ROLLOVERS = 3`, `MAX_MINUTES = 60`,
`ILM_POLL_SECS = 5`, with the clock origin placed at the loop start. -/
def cfgDemo : LoopCfg := ⟨3, 60, 5, 0⟩

/-- Invariant tying the rotation counter to the goal: the counter never
exceeds `TARGET_ROLLOVERS`, and strictly below it while the loop runs. -/
def RotBound (cfg : LoopCfg) (s : LoopState) : Prop :=
  s.rollovers ≤ cfg.targetRotations ∧
    (s.done = none → s.rollovers < cfg.targetRotations)

/-- An accepted send at clock `t` whose poll (when due) resolves `target`. -/
def okSend (t : Nat) (target : String) : IterInput :=
  ⟨.response 200 false, t, target⟩

/-- A send answered with HTTP 413 at clock `t`. -/
def send413 (t : Nat) : IterInput :=
  ⟨.response 413 false, t, "bench-rollover-000001"⟩

/-! ## Claim C1 — sizer bounds -/

/-- C1 counterexample: at `ceilingBytes = 1`, `avgItemBytes = 1` (both
positive) the sizer returns the floor value 1, whose estimated bytes
`1 * (1 + 64)` exceed `ceilingBytes * 0.85` (stated with both sides scaled
by 100), so the claimed byte bound fails. -/
theorem sizer_margin_counterexample :
    initial_dpb 1 1 = 1 ∧
    ¬ 100 * (initial_dpb 1 1 * (1 + 64)) ≤ 85 * 1 := by decide

/-- C1 (amended): for every `ceilingBytes > 0` and `avgItemBytes > 0` the
sizer composed with the loop's hard cap returns an `itemCount` with
`1 <= itemCount <= 40`, and whenever at least one item fits into the safety
budget (`avgItemBytes + 64 <= floor(ceilingBytes * 0.85)`) also
`itemCount * (avgItemBytes + 64) <= ceilingBytes * 0.85` (both sides scaled
by 100); when not even one item fits, the floor at 1 makes the byte bound
fail, as the counterexample shows. -/
theorem sizer_bounds_amended (ceilingBytes avgItemBytes : Nat)
    (_hc : 0 < ceilingBytes) (_ha : 0 < avgItemBytes) :
    1 ≤ initial_dpb avgItemBytes ceilingBytes ∧
    initial_dpb avgItemBytes ceilingBytes ≤ 40 ∧
    (avgItemBytes + 64 ≤ ceilingBytes * 85 / 100 →
      100 * (initial_dpb avgItemBytes ceilingBytes * (avgItemBytes + 64)) ≤
        85 * ceilingBytes) := by
  refine ⟨le_min (le_max_left 1 _) (by norm_num), Nat.min_le_right _ _, ?_⟩
  intro hfit
  have hperpos : 0 < avgItemBytes + 64 := by omega
  have h1 : 1 ≤ ceilingBytes * 85 / 100 / (avgItemBytes + 64) :=
    (Nat.one_le_div_iff hperpos).2 hfit
  have hdpb : initial_dpb avgItemBytes ceilingBytes ≤
      ceilingBytes * 85 / 100 / (avgItemBytes + 64) := by
    calc initial_dpb avgItemBytes ceilingBytes
        ≤ docs_per_batch avgItemBytes ceilingBytes := Nat.min_le_left _ _
      _ = ceilingBytes * 85 / 100 / (avgItemBytes + 64) :=
          max_eq_right h1
  have h2 : initial_dpb avgItemBytes ceilingBytes * (avgItemBytes + 64) ≤
      ceilingBytes * 85 / 100 :=
    le_trans (Nat.mul_le_mul_right _ hdpb) (Nat.div_mul_le_self _ _)
  calc 100 * (initial_dpb avgItemBytes ceilingBytes * (avgItemBytes + 64))
      ≤ 100 * (ceilingBytes * 85 / 100) := Nat.mul_le_mul_left _ h2
    _ = ceilingBytes * 85 / 100 * 100 := Nat.mul_comm _ _
    _ ≤ ceilingBytes * 85 := Nat.div_mul_le_self _ _
    _ = 85 * ceilingBytes := Nat.mul_comm _ _

/-- Witness for C1's amended theorem at `ceilingBytes = 1000`,
`avgItemBytes = 36` (budget 850, per-item 100, sizer output 8). -/
theorem sizer_bounds_amended_witness :
    1 ≤ initial_dpb 36 1000 ∧ initial_dpb 36 1000 ≤ 40 ∧
    100 * (initial_dpb 36 1000 * (36 + 64)) ≤ 85 * 1000 :=
  ⟨(sizer_bounds_amended 1000 36 (by decide) (by decide)).1,
   (sizer_bounds_amended 1000 36 (by decide) (by decide)).2.1,
   (sizer_bounds_amended 1000 36 (by decide) (by decide)).2.2 (by decide)⟩

/-! ## Claim C7 — scenario A -/

/-- C7 counterexample: with `ceilingBytes = 100 * 1024 * 1024` (how the code
parses `"100mb"`) and `avgItemBytes = 2800000` (2.8 MB), the uncapped
formula gives 31, which does not exceed 40, and the capped result is not the
hard cap. -/
theorem scenarioA_counterexample :
    docs_per_batch 2800000 104857600 = 31 ∧
    initial_dpb 2800000 104857600 ≠ 40 := by decide

/-- C7 (amended): with `ceilingBytes = 100 * 1024 * 1024` and
`avgItemBytes = 2800000` the sizer returns 31; the uncapped formula stays
below the hard cap 40, so the cap is not binding. -/
theorem scenarioA_amended :
    docs_per_batch 2800000 104857600 = 31 ∧
    initial_dpb 2800000 104857600 = 31 ∧
    docs_per_batch 2800000 104857600 < 40 := by decide

/-! ## Claim C2 — transport trichotomy -/

/-- Every status in the shrink set is an error status (`>= 300`). -/
theorem mem_shrinkStatuses_imp_ge {s : Nat} (h : s ∈ shrinkStatuses) :
    300 ≤ s := by
  simp [shrinkStatuses] at h
  omega

/-- C2: the transport outcome is exactly three-way — shrink iff a
connection/timeout error occurred or the status is one of
{413, 429, 502, 503, 504}; any other status `>= 300` raises (fatal); any
status `< 300` returns accepted with the batch's item count. -/
theorem transport_trichotomy (docs : Nat) (r : HttpResult) :
    (post_bulk_with_adapt docs r = .shrink ↔
      r = .connError ∨ ∃ s e, r = .response s e ∧ s ∈ shrinkStatuses) ∧
    (∀ s e, r = .response s e → 300 ≤ s → s ∉ shrinkStatuses →
      post_bulk_with_adapt docs r = .fatalStatus s) ∧
    (∀ s e, r = .response s e → s < 300 →
      post_bulk_with_adapt docs r = .accepted docs) := by
  refine ⟨?_, ?_, ?_⟩
  · cases r with
    | connError => simp [post_bulk_with_adapt]
    | response s e =>
      by_cases h3 : 300 ≤ s
      · by_cases hm : s ∈ shrinkStatuses
        · simp only [post_bulk_with_adapt, if_pos h3, if_pos hm]
          exact iff_of_true trivial (Or.inr ⟨s, e, rfl, hm⟩)
        · simp only [post_bulk_with_adapt, if_pos h3, if_neg hm]
          constructor
          · intro hcontra
            exact absurd hcontra (by simp)
          · rintro (hconn | ⟨s', e', heq, hmem⟩)
            · exact absurd hconn (by simp)
            · obtain ⟨rfl, rfl⟩ := by
                simpa using heq
              exact absurd hmem hm
      · simp only [post_bulk_with_adapt, if_neg h3]
        constructor
        · intro hcontra
          exact absurd hcontra (by simp)
        · rintro (hconn | ⟨s', e', heq, hmem⟩)
          · exact absurd hconn (by simp)
          · obtain ⟨rfl, rfl⟩ := by
              simpa using heq
            exact absurd (mem_shrinkStatuses_imp_ge hmem) h3
  · rintro s e rfl h3 hm
    simp [post_bulk_with_adapt, if_pos h3, hm]
  · rintro s e rfl h3
    simp [post_bulk_with_adapt, Nat.not_le.2 h3]

/-- Witness for C2 at statuses 413 (shrink), 400 (fatal) and 200
(accepted). -/
theorem transport_trichotomy_witness :
    post_bulk_with_adapt 7 (.response 413 false) = .shrink ∧
    post_bulk_with_adapt 7 (.response 400 false) = .fatalStatus 400 ∧
    post_bulk_with_adapt 7 (.response 200 true) = .accepted 7 :=
  ⟨(transport_trichotomy 7 (.response 413 false)).1.2
      (Or.inr ⟨413, false, rfl, by decide⟩),
   (transport_trichotomy 7 (.response 400 false)).2.1 400 false rfl
      (by decide) (by decide),
   (transport_trichotomy 7 (.response 200 true)).2.2 200 true rfl (by decide)⟩

/-! ## Claim C8 — encoder determinism -/

/-- C8 counterexample: the same input (`payload = "AAAA"`, `itemCount = 2`)
encoded on two runs whose clock readings differ by one second produces
different bytes — the gzip MTIME header field records the clock. -/
theorem encoder_clock_counterexample :
    encode_batch "AAAA" 2 0 ≠ encode_batch "AAAA" 2 1 := by decide

/-- C8 (amended): the NDJSON construction is a pure function of the inputs,
but the gzip transform writes the current clock into its MTIME field; two
runs on identical inputs produce byte-identical output iff their clock
readings agree modulo `2^32`. -/
theorem encoder_determinism_amended (payload : String) (n t1 t2 : Nat) :
    encode_batch payload n t1 = encode_batch payload n t2 ↔
      t1 % 4294967296 = t2 % 4294967296 := by
  simp only [encode_batch, gzip_bytes, gzip_header, le32, GzipOut.mk.injEq,
    List.cons_append, List.nil_append, List.cons.injEq, and_true, true_and]
  omega

/-! ## Claim C9 — item-level errors in an accepted batch -/

/-- C9 counterexample: the datastream variant's `post_bulk` raises
`"bulk item errors"` on an accepted (status 200) response whose body sets
the `errors` flag, instead of returning an accepted outcome. -/
theorem item_errors_counterexample :
    post_bulk (.response 200 true) = .error "bulk item errors" := by decide

/-- C9 (amended): in the adaptive controllers (v3/v4) an accepted response
(status < 300) returns the accepted outcome with the full item count
whatever the `errors` flag says — the flag is only printed, the run
continues and no item is retried; the datastream variant's `post_bulk`
instead raises on the flag. -/
theorem item_errors_amended (docs status : Nat) (errors : Bool)
    (h : status < 300) :
    post_bulk_with_adapt docs (.response status errors) = .accepted docs := by
  simp [post_bulk_with_adapt, Nat.not_le.2 h]

/-- Witness for C9's amended theorem: status 200 with the errors flag set
still yields the accepted outcome in the adaptive controllers. -/
theorem item_errors_amended_witness :
    post_bulk_with_adapt 5 (.response 200 true) = .accepted 5 :=
  item_errors_amended 5 200 true (by decide)

/-! ## Claim C10 — malformed size suffix raises -/

/-- C10: whenever the `http.max_content_length` value is a string ending in
`"b"` but not `"mb"` whose prefix before the final `"b"` is not a decimal
digit string (e.g. `"1gb"`), the limit-discovery function raises
(`ValueError` from `int(...)`) instead of returning a parsed value or the
100 MiB default — both when the value sits in `persistent` and when it is
the `defaults` entry. -/
theorem content_length_bad_suffix (js : ClusterSettingsView) (v : String)
    (hb : str_endsWith v "b" = true) (hmb : str_endsWith v "mb" = false)
    (hint : py_int (v.dropRight 1) = none) :
    (js.persistent = some v →
      get_http_max_content_length_bytes js = .error "ValueError") ∧
    (js.persistent = none → js.transient = none → js.defaults = some v →
      get_http_max_content_length_bytes js = .error "ValueError") := by
  have hpv : parse_content_length v = some (.error "ValueError") := by
    simp [parse_content_length, hb, hmb, hint]
  constructor
  · intro hp
    simp [get_http_max_content_length_bytes, hp, hpv]
  · intro hp ht hd
    simp [get_http_max_content_length_bytes, hp, ht, hd, hpv]

/-- Witness for C10 at the value `"1gb"`, in the `persistent` slot and in
the `defaults` slot. -/
theorem content_length_bad_suffix_witness :
    get_http_max_content_length_bytes ⟨some "1gb", none, none⟩ =
      .error "ValueError" ∧
    get_http_max_content_length_bytes ⟨none, none, some "1gb"⟩ =
      .error "ValueError" :=
  ⟨(content_length_bad_suffix ⟨some "1gb", none, none⟩ "1gb" (by decide)
      (by decide) (by decide)).1 rfl,
   (content_length_bad_suffix ⟨none, none, some "1gb"⟩ "1gb" (by decide)
      (by decide) (by decide)).2 rfl rfl rfl⟩

/-! ## Claim C3 — shrink halving -/

/-- C3: after any shrink signal the next batch's `itemCount` is exactly
`floor(previous / 2)` floored at 1, the attempt is not counted as a sent
batch and the loop keeps running; and starting from `itemCount = 40`, three
consecutive 413 responses yield the sequence 40 → 20 → 10 → 5 with the
batch counter unchanged during those attempts. -/
theorem shrink_halving :
    (∀ (cfg : LoopCfg) (s : LoopState) (inp : IterInput),
        s.done = none →
        post_bulk_with_adapt s.dpb inp.resp = .shrink →
        (stepIter cfg s inp).dpb = max 1 (s.dpb / 2) ∧
        (stepIter cfg s inp).batches = s.batches ∧
        (stepIter cfg s inp).done = none) ∧
    (stepIter cfgDemo (initState "bench-rollover-000001" 40) (send413 1)).dpb
        = 20 ∧
    (runLoop cfgDemo (initState "bench-rollover-000001" 40)
        [send413 1, send413 2]).dpb = 10 ∧
    runLoop cfgDemo (initState "bench-rollover-000001" 40)
        [send413 1, send413 2, send413 3] =
      ⟨5, "bench-rollover-000001", 0, 0, 0,
       [("bench-rollover-000001", true)], none⟩ := by
  refine ⟨?_, by decide, by decide, by decide⟩
  intro cfg s inp hdone hshrink
  simp [stepIter, hdone, hshrink]

/-- Witness for C3's universal part: one connection-error iteration from
`dpb = 7` halves to `max 1 (7 / 2)` without counting a batch. -/
theorem shrink_halving_witness :
    (stepIter cfgDemo (initState "a" 7) ⟨.connError, 0, "a"⟩).dpb =
      max 1 ((initState "a" 7).dpb / 2) ∧
    (stepIter cfgDemo (initState "a" 7) ⟨.connError, 0, "a"⟩).batches =
      (initState "a" 7).batches :=
  ⟨(shrink_halving.1 cfgDemo (initState "a" 7) ⟨.connError, 0, "a"⟩ rfl
      (by decide)).1,
   (shrink_halving.1 cfgDemo (initState "a" 7) ⟨.connError, 0, "a"⟩ rfl
      (by decide)).2.1⟩

/-! ## Claim C4 — rotation accounting -/

/-- C4: on a due poll after an accepted send, a poll returning the current
identity leaves the rotation counter unchanged, while a distinct identity
increments it by exactly 1, replaces the tracked write target (so repeated
polls of the same new identity cannot increment again) and issues
`set_fast(old, False)` then `set_fast(new, True)`; and in the scenario of
five polls returning `"idx-000001"` followed by `"idx-000002"` (and two more
repeats of it), exactly one rotation is counted, the old target is set
Durable and the new one Fast. -/
theorem rotation_accounting :
    (∀ (cfg : LoopCfg) (s : LoopState) (inp : IterInput),
        s.done = none →
        post_bulk_with_adapt s.dpb inp.resp = .accepted s.dpb →
        cfg.pollSecs ≤ inp.now - s.lastPoll →
        (inp.polled = s.writeIdx →
          (stepIter cfg s inp).rollovers = s.rollovers ∧
          (stepIter cfg s inp).writeIdx = s.writeIdx) ∧
        (inp.polled ≠ s.writeIdx →
          (stepIter cfg s inp).rollovers = s.rollovers + 1 ∧
          (stepIter cfg s inp).writeIdx = inp.polled ∧
          (stepIter cfg s inp).modeLog =
            s.modeLog ++ [(s.writeIdx, false), (inp.polled, true)])) ∧
    runLoop cfgDemo (initState "idx-000001" 40)
      [okSend 5 "idx-000001", okSend 10 "idx-000001", okSend 15 "idx-000001",
       okSend 20 "idx-000001", okSend 25 "idx-000001", okSend 30 "idx-000002",
       okSend 35 "idx-000002", okSend 40 "idx-000002"] =
      ⟨40, "idx-000002", 1, 8, 40,
       [("idx-000001", true), ("idx-000001", false), ("idx-000002", true)],
       none⟩ := by
  refine ⟨?_, by decide⟩
  intro cfg s inp hdone hacc hpoll
  constructor
  · intro hsame
    by_cases hcap : 60 * cfg.maxMinutes < inp.now - cfg.startTs <;>
      simp [stepIter, hdone, hacc, hpoll, hsame, hcap]
  · intro hdiff
    by_cases htar : cfg.targetRotations ≤ s.rollovers + 1
    · simp [stepIter, hdone, hacc, hpoll, hdiff, htar]
    · by_cases hcap : 60 * cfg.maxMinutes < inp.now - cfg.startTs <;>
        simp [stepIter, hdone, hacc, hpoll, hdiff, htar, hcap]

/-- Witness for C4's universal part: a due poll returning the unchanged
identity `"x"` leaves the counter at 0; the same state polled with `"y"`
counts exactly one rotation. -/
theorem rotation_accounting_witness :
    (stepIter cfgDemo (initState "x" 40) (okSend 6 "x")).rollovers =
      (initState "x" 40).rollovers ∧
    (stepIter cfgDemo (initState "x" 40) (okSend 6 "y")).rollovers =
      (initState "x" 40).rollovers + 1 :=
  ⟨((rotation_accounting.1 cfgDemo (initState "x" 40) (okSend 6 "x") rfl
      (by decide) (by decide)).1 rfl).1,
   ((rotation_accounting.1 cfgDemo (initState "x" 40) (okSend 6 "y") rfl
      (by decide) (by decide)).2 (by decide)).1⟩

/-! ## Claim C5 — termination and rotation bound -/

/-- One loop iteration preserves the rotation-bound invariant. -/
theorem rotBound_step (cfg : LoopCfg) (s : LoopState) (inp : IterInput)
    (h : RotBound cfg s) : RotBound cfg (stepIter cfg s inp) := by
  obtain ⟨h1, h2⟩ := h
  by_cases hd : s.done = none
  · cases hpb : post_bulk_with_adapt s.dpb inp.resp with
    | shrink =>
      simpa [stepIter, hd, hpb, RotBound] using ⟨h1, h2 hd⟩
    | fatalStatus st =>
      simpa [stepIter, hd, hpb, RotBound] using h1
    | accepted d =>
      have hlt := h2 hd
      by_cases hpoll : cfg.pollSecs ≤ inp.now - s.lastPoll
      · by_cases hsame : inp.polled = s.writeIdx
        · by_cases hcap : 60 * cfg.maxMinutes < inp.now - cfg.startTs <;>
            simp [stepIter, hd, hpb, hpoll, hsame, hcap, RotBound] <;> omega
        · by_cases htar : cfg.targetRotations ≤ s.rollovers + 1
          · simp [stepIter, hd, hpb, hpoll, hsame, htar, RotBound]
            omega
          · by_cases hcap : 60 * cfg.maxMinutes < inp.now - cfg.startTs <;>
              simp [stepIter, hd, hpb, hpoll, hsame, htar, hcap, RotBound] <;>
              omega
      · by_cases hcap : 60 * cfg.maxMinutes < inp.now - cfg.startTs <;>
          simp [stepIter, hd, hpb, hpoll, hcap, RotBound] <;> omega
  · have hds : s.done.isSome = true := by
      cases hs : s.done with
      | none => exact absurd hs hd
      | some r => rfl
    simpa [stepIter, hds, RotBound] using ⟨h1, h2⟩

/-- The rotation-bound invariant is preserved by any finite trace. -/
theorem rotBound_run (cfg : LoopCfg) (inputs : List IterInput)
    (s : LoopState) (h : RotBound cfg s) :
    RotBound cfg (runLoop cfg s inputs) := by
  induction inputs generalizing s with
  | nil => exact h
  | cons i t ih =>
    simpa [runLoop] using ih (stepIter cfg s i) (rotBound_step cfg s i h)

/-- C5 counterexample: a backend that answers every send with a shrink
signal (413, 429, then a connection error) keeps the loop running even
though the trace's last clock reading is far past the `MAX_MINUTES` cap —
the cap check sits after the accepted-send path and a shrink iteration
`continue`s before reaching it, so termination does NOT hold regardless of
backend behavior. -/
theorem termination_counterexample :
    (runLoop cfgDemo (initState "a" 40)
      [⟨.response 413 false, 2000, "a"⟩, ⟨.response 429 false, 4000, "a"⟩,
       ⟨.connError, 10000, "a"⟩]).done = none ∧
    60 * cfgDemo.maxMinutes < 10000 - cfgDemo.startTs := by decide

/-- C5 (amended): `rotationsObserved <= targetRotations` holds after every
trace (started from the initial state with a positive goal); the wall-clock
cap is checked after every accepted send independently of the rotation
count, so the first accepted send whose clock reading exceeds the cap
terminates the loop; and the loop stops with `goalReached` immediately when
a rotation brings the counter to the goal.  (Termination within
`maxMinutes` regardless of backend behavior fails: only accepted sends
reach the cap check, as the counterexample shows.) -/
theorem termination_amended :
    (∀ (cfg : LoopCfg) (name : String) (dpb : Nat) (inputs : List IterInput),
        1 ≤ cfg.targetRotations →
        (runLoop cfg (initState name dpb) inputs).rollovers ≤
          cfg.targetRotations) ∧
    (∀ (cfg : LoopCfg) (s : LoopState) (inp : IterInput),
        s.done = none →
        post_bulk_with_adapt s.dpb inp.resp = .accepted s.dpb →
        60 * cfg.maxMinutes < inp.now - cfg.startTs →
        (stepIter cfg s inp).done ≠ none) ∧
    (∀ (cfg : LoopCfg) (s : LoopState) (inp : IterInput),
        s.done = none →
        post_bulk_with_adapt s.dpb inp.resp = .accepted s.dpb →
        cfg.pollSecs ≤ inp.now - s.lastPoll →
        inp.polled ≠ s.writeIdx →
        cfg.targetRotations ≤ s.rollovers + 1 →
        (stepIter cfg s inp).done = some .goalReached) := by
  refine ⟨?_, ?_, ?_⟩
  · intro cfg name dpb inputs htarget
    have hinit : RotBound cfg (initState name dpb) := by
      unfold RotBound initState
      exact ⟨Nat.zero_le _, fun _ => htarget⟩
    exact (rotBound_run cfg inputs _ hinit).1
  · intro cfg s inp hdone hacc hcap
    by_cases hpoll : cfg.pollSecs ≤ inp.now - s.lastPoll
    · by_cases hsame : inp.polled = s.writeIdx
      · simp [stepIter, hdone, hacc, hpoll, hsame, hcap]
      · by_cases htar : cfg.targetRotations ≤ s.rollovers + 1 <;>
          simp [stepIter, hdone, hacc, hpoll, hsame, htar, hcap]
    · simp [stepIter, hdone, hacc, hpoll, hcap]
  · intro cfg s inp hdone hacc hpoll hdiff htarget
    simp [stepIter, hdone, hacc, hpoll, hdiff, htarget]

/-- Witness for C5's amended theorem: a one-send trace keeps the counter
within the goal; an accepted send at clock 4000 (past the 3600-second cap)
terminates; a rotation reaching the goal of 3 stops with `goalReached`. -/
theorem termination_amended_witness :
    (runLoop cfgDemo (initState "idx-000001" 40)
        [okSend 9 "idx-000001"]).rollovers ≤ cfgDemo.targetRotations ∧
    (stepIter cfgDemo (initState "a" 40) (okSend 4000 "a")).done ≠ none ∧
    (stepIter cfgDemo ⟨40, "a", 2, 0, 0, [], none⟩ (okSend 6 "b")).done =
      some .goalReached :=
  ⟨termination_amended.1 cfgDemo "idx-000001" 40 _ (by decide),
   termination_amended.2.1 cfgDemo _ _ rfl (by decide) (by decide),
   termination_amended.2.2 cfgDemo _ _ rfl (by decide) (by decide)
     (by decide) (by decide)⟩

/-! ## Claim C6 — write-index resolution -/

/-- C6 counterexample: with two indices both carrying the write flag the
function does NOT raise — it returns the first one. -/
theorem write_index_counterexample :
    get_write_index [("a", true), ("b", true)] = .ok "a" := by decide

/-- C6 (amended): the function returns a target name as soon as at least
one index carries the write flag — the first flagged one in iteration
order, hence exactly the flagged index when it is unique — and raises only
when no index carries the flag; multiple flagged indices are not
detected. -/
theorem write_index_amended (l : List (String × Bool)) :
    ((∃ p ∈ l, p.2 = true) → ∃ name, get_write_index l = .ok name) ∧
    ((∀ p ∈ l, p.2 = false) →
      get_write_index l = .error "Write index for alias not found") ∧
    (∀ name, (l.filter fun p => p.2).map Prod.fst = [name] →
      get_write_index l = .ok name) := by
  induction l with
  | nil =>
    refine ⟨?_, fun _ => rfl, ?_⟩
    · rintro ⟨p, hp, -⟩
      exact absurd hp (List.not_mem_nil p)
    · intro name h
      simp at h
  | cons hd tl ih =>
    obtain ⟨ih1, ih2, ih3⟩ := ih
    by_cases hflag : hd.2 = true
    · have hget : get_write_index (hd :: tl) = .ok hd.1 := by
        simp [get_write_index, List.find?_cons_of_pos, hflag]
      refine ⟨fun _ => ⟨hd.1, hget⟩, ?_, ?_⟩
      · intro hall
        exact absurd (hall hd (List.mem_cons_self hd tl)) (by simp [hflag])
      · intro name h
        rw [List.filter_cons_of_pos (by simpa using hflag)] at h
        simp only [List.map_cons, List.cons.injEq] at h
        obtain ⟨h1, h2⟩ := h
        rw [hget, h1]
    · have hget : get_write_index (hd :: tl) = get_write_index tl := by
        simp [get_write_index, List.find?_cons_of_neg, hflag]
      refine ⟨?_, ?_, ?_⟩
      · rintro ⟨p, hp, hpt⟩
        rcases List.mem_cons.mp hp with rfl | hptl
        · exact absurd hpt hflag
        · exact hget ▸ ih1 ⟨p, hptl, hpt⟩
      · intro hall
        rw [hget]
        exact ih2 (fun p hp => hall p (List.mem_cons_of_mem hd hp))
      · intro name h
        rw [List.filter_cons_of_neg (by simpa using hflag)] at h
        exact hget ▸ ih3 name h

/-- Witness for C6's amended theorem: with exactly one flagged index the
function returns it. -/
theorem write_index_amended_witness :
    get_write_index [("a", false), ("b", true)] = .ok "b" :=
  (write_index_amended [("a", false), ("b", true)]).2.2 "b" (by decide)
